import Mathlib

set_option maxRecDepth 8192

/-!
Shallow embedding of the repository's Offline Cache Agent (service worker),
which exists in two revisions:
  revision 1 — the file defining `CACHE_VERSION = 'ayyappa-songs-v5'`
  revision 2 — the file defining `CACHE_NAME = 'ayyappa-songs-v7'`

The host environment's Cache Store (`caches`) is modelled as an association
list from cache name to a list of (url, response) entries.  Asynchronous
handlers are modelled as pure state transformers: the network is an explicit
function from URL to `Option Response` (`none` = the fetch promise rejects),
and each handler returns the resulting store together with observable data
(the response handed to `respondWith`, the number of network fetches
performed, whether `respondWith` was called at all).
-/

namespace SW

/-- A response snapshot: HTTP status, response type (the JS `Response.type`
field: "basic", "cors", "opaque", "default", ...) and body.  Cloning a
response (`response.clone()`) is the identity on this snapshot. -/
structure Response where
  status : Nat
  rtype : String
  body : String
deriving DecidableEq

/-- JS `Response.ok`: status in the range 200..299. -/
def Response.ok (r : Response) : Bool :=
  200 ≤ r.status && r.status < 300

/-- A request as the fetch handlers observe it.  `origin` is the origin
component of `url` as the host's URL parser (`new URL(request.url).origin`)
would produce it; it is carried as a field because URL parsing is done by the
host environment. -/
structure Request where
  method : String
  url : String
  origin : String
  mode : String
deriving DecidableEq

/-- JS `s.startsWith(p)`, computed structurally on the character lists of
the two strings. -/
def strStartsWith (s p : String) : Bool :=
  p.data.isPrefixOf s.data

/-- The entries of one named cache: url → response, most recent `put` wins. -/
abbrev CacheEntries := List (String × Response)

/-- The whole cache store: cache name → entries, in creation order. -/
abbrev CacheStore := List (String × CacheEntries)

/-- `cache.match(url)` inside one cache. -/
def lookupEntries : CacheEntries → String → Option Response
  | [], _ => none
  | e :: es, url => if e.1 = url then some e.2 else lookupEntries es url

/-- `caches.match(request)`: search every cache, in order. -/
def cachesMatch : CacheStore → String → Option Response
  | [], _ => none
  | c :: cs, url =>
    match lookupEntries c.2 url with
    | some r => some r
    | none => cachesMatch cs url

/-- Look a url up inside the cache of the given name only. -/
def cacheGet : CacheStore → String → String → Option Response
  | [], _, _ => none
  | c :: cs, name, url =>
    if c.1 = name then lookupEntries c.2 url else cacheGet cs name url

/-- `cache.put(url, r)` inside one cache: overwrite a matching entry in
place, else append. -/
def putEntries : CacheEntries → String → Response → CacheEntries
  | [], url, r => [(url, r)]
  | e :: es, url, r =>
    if e.1 = url then (url, r) :: es else e :: putEntries es url r

/-- `caches.open(name)`: create the named cache (empty) if absent. -/
def cacheOpen : CacheStore → String → CacheStore
  | [], name => [(name, [])]
  | c :: cs, name => if c.1 = name then c :: cs else c :: cacheOpen cs name

/-- `caches.open(name)` followed by `cache.put(url, r)` on the opened cache. -/
def cachePut : CacheStore → String → String → Response → CacheStore
  | [], name, url, r => [(name, [(url, r)])]
  | c :: cs, name, url, r =>
    if c.1 = name then (c.1, putEntries c.2 url r) :: cs
    else c :: cachePut cs name url r

/-- `caches.match(request)` on a full request object: the Cache API only
ever matches GET requests (no handler here sets `ignoreMethod`), so a
request whose method is not GET never produces a cache hit. -/
def cachesMatchReq (s : CacheStore) (req : Request) : Option Response :=
  if req.method = "GET" then cachesMatch s req.url else none

/-- `caches.open(name)` followed by `cache.put(request, r)` on a full
request object: the Cache API rejects `put` for a request whose method is
not GET; in the handlers the put promise is fire-and-forget, so that
rejection only means nothing is stored. -/
def cachePutReq (s : CacheStore) (name : String) (req : Request)
    (r : Response) : CacheStore :=
  if req.method = "GET" then cachePut s name req.url r else s

/-- `caches.delete(name)`. -/
def cachesDelete (s : CacheStore) (name : String) : CacheStore :=
  s.filter (fun c => c.1 ≠ name)

/-- `caches.keys()`. -/
def cachesKeys (s : CacheStore) : List String :=
  s.map Prod.fst

/-- The activate handler common to both revisions: take a snapshot of
`caches.keys()`, and for each listed name that is not string-equal to the
current cache name, `caches.delete` it. -/
def activateWith (current : String) (s : CacheStore) : CacheStore :=
  (cachesKeys s).foldl
    (fun acc cacheName =>
      if cacheName ≠ current then cachesDelete acc cacheName else acc) s

/-- What a fetch-event handler produces, observably: the value the promise
passed to `respondWith` resolves with (`none` both when `respondWith` is
never called and when that promise resolves with `undefined`), the resulting
cache store, how many network fetches were performed, and whether
`respondWith` was called (the request was intercepted). -/
structure FetchOutcome where
  response : Option Response
  store : CacheStore
  netCalls : Nat
  intercepted : Bool
deriving DecidableEq

/-- A message's data, when it is an object with `type` and `url` fields;
`event.data` that is absent/falsy is modelled as `none` at the use site. -/
structure MsgData where
  mtype : String
  url : String
deriving DecidableEq

/-- Outcome of an install handler: resulting store and whether the promise
passed to `event.waitUntil` fulfilled (install reported successful). -/
structure InstallOutcome where
  store : CacheStore
  fulfilled : Bool
deriving DecidableEq

/-- Outcome of revision 2's install handler: additionally the list of URLs
for which `console.warn` fired. -/
structure InstallOutcome2 where
  store : CacheStore
  warned : List String
  fulfilled : Bool
deriving DecidableEq

end SW

namespace SW.V1

/-- `const CACHE_VERSION = 'ayyappa-songs-v5'`. -/
def CACHE_VERSION : String := "ayyappa-songs-v5"

/-- `const OFFLINE_PAGE = '/offline/'`. -/
def OFFLINE_PAGE : String := "/offline/"

/-- `const CACHE_NAME = CACHE_VERSION + '-cache'`. -/
def CACHE_NAME : String := CACHE_VERSION ++ "-cache"

/-- The install manifest `urlsToCache`. -/
def urlsToCache : List String :=
  ["/", "/songs/", "/offline/", "/static/manifest.json",
   "/static/icons/icon-192.png", "/static/icons/icon-512.png"]

/-- The fetches performed by `cache.addAll(urls)`: all URLs are fetched; if
any fetch rejects or resolves with a not-ok response, `addAll` rejects
(`none`) and, the batch write being atomic, nothing is stored. -/
def addAllFetch (net : String → Option SW.Response) :
    List String → Option (List (String × SW.Response))
  | [] => some []
  | u :: us =>
    match net u with
    | none => none
    | some r =>
      if r.ok then (addAllFetch net us).map (fun rest => (u, r) :: rest)
      else none

/-- Revision 1's install handler: `caches.open(CACHE_NAME)`, then
`cache.addAll(urlsToCache)`, with a `.catch` that only logs.  Because the
rejection is caught, the promise given to `waitUntil` always fulfills. -/
def install (net : String → Option SW.Response) (s : SW.CacheStore) :
    SW.InstallOutcome :=
  let opened := SW.cacheOpen s CACHE_NAME
  match addAllFetch net urlsToCache with
  | some fetched =>
    ⟨fetched.foldl (fun acc pr => SW.cachePut acc CACHE_NAME pr.1 pr.2) opened,
     true⟩
  | none => ⟨opened, true⟩

/-- Revision 1's activate handler. -/
def activate : SW.CacheStore → SW.CacheStore :=
  SW.activateWith CACHE_NAME

/-- Revision 1's fetch handler: return early on non-GET; otherwise
cache-first across all caches; on a miss fetch the network, storing a clone
under `CACHE_NAME` when the request URL starts with the agent's origin; on
network failure serve `caches.match(OFFLINE_PAGE)` for navigations and let
the promise resolve with `undefined` otherwise. -/
def fetchHandler (locationOrigin : String) (net : String → Option SW.Response)
    (s : SW.CacheStore) (req : SW.Request) : SW.FetchOutcome :=
  if req.method ≠ "GET" then ⟨none, s, 0, false⟩
  else
    match SW.cachesMatch s req.url with
    | some cachedResponse => ⟨some cachedResponse, s, 0, true⟩
    | none =>
      match net req.url with
      | some networkResponse =>
        if strStartsWith req.url locationOrigin then
          ⟨some networkResponse,
           SW.cachePut s CACHE_NAME req.url networkResponse, 1, true⟩
        else ⟨some networkResponse, s, 1, true⟩
      | none =>
        if req.mode = "navigate" then
          ⟨SW.cachesMatch s OFFLINE_PAGE, s, 1, true⟩
        else ⟨none, s, 1, true⟩

/-- Revision 1's message handler: on `event.data && event.data.type ===
'SAVE_OFFLINE'`, `caches.open(CACHE_NAME)` then `cache.add(event.data.url)`
(fetch the url and store the response when it is ok; a not-ok response or a
failed fetch makes `add` reject, which is unhandled and stores nothing). -/
def messageHandler (net : String → Option SW.Response) (s : SW.CacheStore)
    (m : Option SW.MsgData) : SW.CacheStore :=
  match m with
  | none => s
  | some d =>
    if d.mtype = "SAVE_OFFLINE" then
      match net d.url with
      | some r =>
        if r.ok then SW.cachePut s CACHE_NAME d.url r
        else SW.cacheOpen s CACHE_NAME
      | none => SW.cacheOpen s CACHE_NAME
    else s

end SW.V1

namespace SW.V2

/-- `const CACHE_NAME = 'ayyappa-songs-v7'`. -/
def CACHE_NAME : String := "ayyappa-songs-v7"

/-- `const OFFLINE_URL = '/offline/'`. -/
def OFFLINE_URL : String := "/offline/"

/-- The install manifest `CACHE_URLS`. -/
def CACHE_URLS : List String :=
  ["/", "/offline/", "/static/manifest.json", "/static/css/tailwind.min.css",
   "/static/icons/icon-192.png", "/static/icons/icon-512.png"]

/-- One step of revision 2's install loop for a single manifest URL:
`fetch(url, cache:'reload')` inside a try/catch; when the fetch resolves
with an ok response, `cache.put(url, response)`; when it resolves not-ok,
nothing happens; when it rejects, `console.warn` fires for that url. -/
def installStep (net : String → Option SW.Response)
    (acc : SW.CacheStore × List String) (url : String) :
    SW.CacheStore × List String :=
  match net url with
  | none => (acc.1, acc.2 ++ [url])
  | some r =>
    if r.ok then (SW.cachePut acc.1 CACHE_NAME url r, acc.2) else acc

/-- Revision 2's install handler: open the cache, run the per-URL loop over
`CACHE_URLS`, and `Promise.all` the per-URL promises — none of which can
reject (each has its own try/catch), so `waitUntil`'s promise always
fulfills. -/
def install (net : String → Option SW.Response) (s : SW.CacheStore) :
    SW.InstallOutcome2 :=
  let result := CACHE_URLS.foldl (installStep net) (SW.cacheOpen s CACHE_NAME, [])
  ⟨result.1, result.2, true⟩

/-- Revision 2's activate handler. -/
def activate : SW.CacheStore → SW.CacheStore :=
  SW.activateWith CACHE_NAME

/-- `new Response('Network error', status: 408)`: a constructed response has
type "default". -/
def networkErrorResponse : SW.Response :=
  ⟨408, "default", "Network error"⟩

/-- Revision 2's fetch handler: return early (no interception) when the
request URL's origin differs from the agent's origin; network-first with
`caches.match(OFFLINE_URL)` fallback for navigations; otherwise cache-first,
and on a miss fetch the network, caching a clone only when the response has
status 200 and type "basic", and answering a rejected fetch with a synthetic
408 response.  There is no request-method guard in this revision, so non-GET
same-origin requests are intercepted too; for them the Cache API makes
`caches.match(request)` miss and rejects the fire-and-forget
`cache.put(request, clone)`, so nothing is ever stored for them — this is
carried by `cachesMatchReq` and `cachePutReq`. -/
def fetchHandler (locationOrigin : String) (net : String → Option SW.Response)
    (s : SW.CacheStore) (req : SW.Request) : SW.FetchOutcome :=
  if req.origin ≠ locationOrigin then ⟨none, s, 0, false⟩
  else if req.mode = "navigate" then
    match net req.url with
    | some r => ⟨some r, s, 1, true⟩
    | none => ⟨SW.cachesMatch s OFFLINE_URL, s, 1, true⟩
  else
    match SW.cachesMatchReq s req with
    | some cachedResponse => ⟨some cachedResponse, s, 0, true⟩
    | none =>
      match net req.url with
      | some response =>
        if response.status ≠ 200 ∨ response.rtype ≠ "basic" then
          ⟨some response, s, 1, true⟩
        else
          ⟨some response, SW.cachePutReq s CACHE_NAME req response, 1, true⟩
      | none => ⟨some networkErrorResponse, s, 1, true⟩

/-- Revision 2 registers no message listener at all: delivering a message of
any shape to the revision-2 agent performs no fetch and leaves the cache
store unchanged. -/
def messageHandler (s : SW.CacheStore) (_m : Option SW.MsgData) :
    SW.CacheStore := s

end SW.V2

namespace SW

/-- The cache name the page script (`app.js`, function `saveOffline`) writes
user-saved songs into, separately from the agent's own cache. -/
def appOfflineCacheName : String := "ayyappa-offline-songs"

/-- The page script's own half of `saveOffline`: open the cache named
`ayyappa-offline-songs` and `cache.add(url)` into it (store the fetched
response when it is ok). -/
def pageSaveOffline (s : CacheStore) (url : String) (r : Response) :
    CacheStore :=
  cachePut s appOfflineCacheName url r

/-! ### Concrete example inputs used by witnesses and counterexamples -/

/-- A concrete cache store holding one stale generation alongside both
revisions' current generations. -/
def exStoreC1 : CacheStore :=
  [("ayyappa-songs-v4-cache", [("/", ⟨200, "basic", "stale root"⟩)]),
   (V1.CACHE_NAME, [("/", ⟨200, "basic", "v5 root"⟩)]),
   (V2.CACHE_NAME, [("/", ⟨200, "basic", "v7 root"⟩)])]

/-- The agent's own origin in the examples. -/
def exOrigin : String := "https://ayyappa.example"

/-- A cached 200 "basic" response. -/
def exResp200 : Response := ⟨200, "basic", "cached body"⟩

/-- A distinct fresh response the example network returns. -/
def exNetResp : Response := ⟨200, "basic", "network body"⟩

/-- A same-origin 404 response. -/
def exResp404 : Response := ⟨404, "basic", "not found"⟩

/-- A network that always succeeds with `exNetResp`. -/
def exNetAlways : String → Option Response := fun _ => some exNetResp

/-- A network that is unreachable. -/
def exNetDown : String → Option Response := fun _ => none

/-- A network that always resolves with the 404 response. -/
def exNet404 : String → Option Response := fun _ => some exResp404

/-- A network where exactly the manifest entry "/songs/" fails to fetch. -/
def exNetPartial : String → Option Response :=
  fun u => if u = "/songs/" then none else some exResp200

/-- A network where "/offline/" resolves with a 404 and everything else with
a 200. -/
def exNet404Offline : String → Option Response :=
  fun u => if u = "/offline/" then some exResp404 else some exResp200

/-- A store whose only entry is a cached same-origin stylesheet. -/
def exStoreHit : CacheStore :=
  [(V2.CACHE_NAME, [("https://ayyappa.example/static/app.css", exResp200)])]

/-- A GET sub-resource request for the cached stylesheet. -/
def exReqCss : Request :=
  ⟨"GET", "https://ayyappa.example/static/app.css", exOrigin, "no-cors"⟩

/-- A store whose only entry is the cached home page. -/
def exStoreNavHit : CacheStore :=
  [(V2.CACHE_NAME, [("https://ayyappa.example/", exResp200)])]

/-- A GET navigation request for the cached home page. -/
def exReqNav : Request :=
  ⟨"GET", "https://ayyappa.example/", exOrigin, "navigate"⟩

/-- A GET request for an uncached same-origin resource. -/
def exReqMissing : Request :=
  ⟨"GET", "https://ayyappa.example/missing.css", exOrigin, "no-cors"⟩

/-- A same-origin POST request. -/
def exReqPost : Request :=
  ⟨"POST", "https://ayyappa.example/api/like", exOrigin, "cors"⟩

/-- A cross-origin GET request to a CDN. -/
def exReqCdn : Request :=
  ⟨"GET", "https://cdn.example/lib.js", "https://cdn.example", "no-cors"⟩

/-- A SAVE_OFFLINE message for one song page. -/
def exMsgSave : Option MsgData := some ⟨"SAVE_OFFLINE", "/songs/view/42/"⟩

/-- A message of a different shape. -/
def exMsgOther : Option MsgData := some ⟨"PING", "/x"⟩

/-- The response the example network returns for a saved song page. -/
def exSongResp : Response := ⟨200, "basic", "song page"⟩

/-- A network that always succeeds with the song page response. -/
def exNetSong : String → Option Response := fun _ => some exSongResp

/-! ### Cache-store lemmas -/

theorem deleteLoop_eq_filter (current : String) (names : List String) :
    ∀ t : CacheStore,
      names.foldl
        (fun acc cacheName =>
          if cacheName ≠ current then cachesDelete acc cacheName else acc) t
        = t.filter (fun c => c.1 = current ∨ c.1 ∉ names) := by
  induction names with
  | nil =>
    intro t
    simp
  | cons n ns ih =>
    intro t
    rw [List.foldl_cons]
    by_cases hn : n = current
    · rw [if_neg (by simp [hn]), ih]
      refine List.filter_congr ?_
      intro c _
      by_cases hc : c.1 = current
      · simp [hc]
      · have hcn : c.1 ≠ n := fun h => hc (h.trans hn)
        simp [hc, hcn]
    · rw [if_pos hn, ih]
      unfold cachesDelete
      rw [List.filter_filter]
      refine List.filter_congr ?_
      intro c _
      by_cases hc : c.1 = current
      · have hcn : c.1 ≠ n := fun h => hn (h ▸ hc)
        have hnc : ¬current = n := fun h => hn h.symm
        simp [hc, hcn, hnc]
      · by_cases hcn : c.1 = n
        · simp [hc, hcn, hn]
        · simp [hc, hcn]

theorem activateWith_eq_filter (current : String) (s : CacheStore) :
    activateWith current s = s.filter (fun c => c.1 = current) := by
  unfold activateWith
  rw [deleteLoop_eq_filter]
  refine List.filter_congr ?_
  intro c hc
  have hmem : c.1 ∈ cachesKeys s := List.mem_map_of_mem Prod.fst hc
  simp [hmem]

theorem mem_keys_activate (current : String) (s : CacheStore) (n : String) :
    n ∈ cachesKeys (activateWith current s) ↔ n = current ∧ n ∈ cachesKeys s := by
  rw [activateWith_eq_filter]
  unfold cachesKeys
  constructor
  · intro h
    rcases List.mem_map.mp h with ⟨c, hc, hfst⟩
    rcases List.mem_filter.mp hc with ⟨hcs, hcur⟩
    have : c.1 = current := by simpa using hcur
    exact ⟨hfst ▸ this, hfst ▸ List.mem_map_of_mem Prod.fst hcs⟩
  · rintro ⟨hcur, hmem⟩
    rcases List.mem_map.mp hmem with ⟨c, hc, hfst⟩
    refine List.mem_map.mpr ⟨c, List.mem_filter.mpr ⟨hc, ?_⟩, hfst⟩
    simp [hfst, hcur]

theorem cacheGet_activate_self (current : String) (s : CacheStore)
    (url : String) :
    cacheGet (activateWith current s) current url = cacheGet s current url := by
  rw [activateWith_eq_filter]
  induction s with
  | nil => rfl
  | cons c cs ih =>
    by_cases hc : c.1 = current
    · simp [cacheGet, hc]
    · simp [cacheGet, hc, ih]

theorem cacheGet_activate_ne (current : String) (s : CacheStore)
    (name url : String) (h : name ≠ current) :
    cacheGet (activateWith current s) name url = none := by
  rw [activateWith_eq_filter]
  induction s with
  | nil => rfl
  | cons c cs ih =>
    by_cases hc : c.1 = current
    · have hcn : ¬c.1 = name := fun he => h (he ▸ hc)
      have hdec : decide (c.1 = current) = true := by simp [hc]
      rw [List.filter_cons, if_pos hdec]
      simp only [cacheGet]
      rw [if_neg hcn]
      exact ih
    · simp [cacheGet, hc, ih]

theorem lookupEntries_putEntries_self (es : CacheEntries) (url : String)
    (r : Response) : lookupEntries (putEntries es url r) url = some r := by
  induction es with
  | nil =>
    show lookupEntries [(url, r)] url = some r
    simp [lookupEntries]
  | cons e es ih =>
    by_cases he : e.1 = url
    · simp [putEntries, he, lookupEntries]
    · simp [putEntries, he, lookupEntries, ih]

theorem lookupEntries_putEntries_ne (es : CacheEntries) (url u : String)
    (r : Response) (h : url ≠ u) :
    lookupEntries (putEntries es url r) u = lookupEntries es u := by
  induction es with
  | nil => simp [putEntries, lookupEntries, h]
  | cons e es ih =>
    by_cases he : e.1 = url
    · simp [putEntries, he, lookupEntries, h]
    · simp only [putEntries, if_neg he]
      by_cases heu : e.1 = u
      · simp [lookupEntries, heu]
      · simp [lookupEntries, heu, ih]

theorem cacheGet_cachePut_self (s : CacheStore) (name url : String)
    (r : Response) : cacheGet (cachePut s name url r) name url = some r := by
  induction s with
  | nil => simp [cachePut, cacheGet, lookupEntries]
  | cons c cs ih =>
    by_cases hc : c.1 = name
    · simp [cachePut, hc, cacheGet, lookupEntries_putEntries_self]
    · simp [cachePut, hc, cacheGet, ih]

theorem cacheGet_cachePut_ne_url (s : CacheStore) (name url u : String)
    (r : Response) (h : url ≠ u) :
    cacheGet (cachePut s name url r) name u = cacheGet s name u := by
  induction s with
  | nil => simp [cachePut, cacheGet, lookupEntries, h]
  | cons c cs ih =>
    by_cases hc : c.1 = name
    · simp [cachePut, hc, cacheGet, lookupEntries_putEntries_ne _ _ _ _ h]
    · simp [cachePut, hc, cacheGet, ih]

theorem cacheGet_cacheOpen (s : CacheStore) (name' name url : String) :
    cacheGet (cacheOpen s name') name url = cacheGet s name url := by
  induction s with
  | nil =>
    by_cases h : name' = name
    · simp [cacheOpen, cacheGet, h, lookupEntries]
    · simp [cacheOpen, cacheGet, h]
  | cons c cs ih =>
    by_cases hc : c.1 = name'
    · simp [cacheOpen, hc]
    · by_cases hcn : c.1 = name
      · simp only [cacheOpen, if_neg hc, cacheGet, if_pos hcn]
      · simp only [cacheOpen, if_neg hc, cacheGet, if_neg hcn]
        exact ih

/-! ### Claim C1 -/

/-- C1 (counterexample): on the prior state with zero generations, after
revision 1's activate handler completes the set of cache names is empty, not
the singleton of the current cache name, refuting the claim's quantification
over prior states of 0..N generations. -/
theorem claim1_counterexample :
    ¬ (∀ n, n ∈ cachesKeys (V1.activate ([] : CacheStore)) ↔
        n = V1.CACHE_NAME) := by
  intro h
  exact absurd ((h V1.CACHE_NAME).mpr rfl) (by decide)

/-- C1 (amended): for every prior cache-store state that contains the
revision's current generation, after that revision's activate handler
completes the set of cache names is exactly the singleton of the current
cache name, and the current generation's entries are untouched; for prior
states lacking the current generation only the non-current generations are
removed (nothing is created). -/
theorem claim1_theorem (s : CacheStore) :
    (V1.CACHE_NAME ∈ cachesKeys s →
      ∀ n, n ∈ cachesKeys (V1.activate s) ↔ n = V1.CACHE_NAME) ∧
    (∀ u, cacheGet (V1.activate s) V1.CACHE_NAME u
        = cacheGet s V1.CACHE_NAME u) ∧
    (V2.CACHE_NAME ∈ cachesKeys s →
      ∀ n, n ∈ cachesKeys (V2.activate s) ↔ n = V2.CACHE_NAME) ∧
    (∀ u, cacheGet (V2.activate s) V2.CACHE_NAME u
        = cacheGet s V2.CACHE_NAME u) := by
  refine ⟨?_, ?_, ?_, ?_⟩
  · intro hmem n
    simp only [V1.activate, mem_keys_activate]
    exact ⟨fun h => h.1, fun h => ⟨h, h ▸ hmem⟩⟩
  · intro u
    simp only [V1.activate]
    exact cacheGet_activate_self _ _ _
  · intro hmem n
    simp only [V2.activate, mem_keys_activate]
    exact ⟨fun h => h.1, fun h => ⟨h, h ▸ hmem⟩⟩
  · intro u
    simp only [V2.activate]
    exact cacheGet_activate_self _ _ _

/-- C1 (witness): the amended theorem applied to the concrete store holding
a stale generation and both current generations. -/
theorem claim1_witness :
    (V1.CACHE_NAME ∈ cachesKeys (V1.activate exStoreC1) ↔
       V1.CACHE_NAME = V1.CACHE_NAME) ∧
    cacheGet (V1.activate exStoreC1) V1.CACHE_NAME "/"
      = cacheGet exStoreC1 V1.CACHE_NAME "/" ∧
    (V2.CACHE_NAME ∈ cachesKeys (V2.activate exStoreC1) ↔
       V2.CACHE_NAME = V2.CACHE_NAME) ∧
    cacheGet (V2.activate exStoreC1) V2.CACHE_NAME "/"
      = cacheGet exStoreC1 V2.CACHE_NAME "/" :=
  ⟨(claim1_theorem exStoreC1).1 (by decide) V1.CACHE_NAME,
   (claim1_theorem exStoreC1).2.1 "/",
   (claim1_theorem exStoreC1).2.2.1 (by decide) V2.CACHE_NAME,
   (claim1_theorem exStoreC1).2.2.2 "/"⟩

/-! ### Claim C9 -/

/-- C9: revision 1's activate cleanup deletes every cache whose name differs
from its current cache name; in particular the page script's separate
`ayyappa-offline-songs` cache never survives activation, so a song saved for
offline reading through the page UI's own cache is gone after the agent
activates. -/
theorem claim9_theorem (s : CacheStore) (url : String) (r : Response) :
    appOfflineCacheName ∉ cachesKeys (V1.activate s) ∧
    cacheGet (V1.activate (pageSaveOffline s url r))
      appOfflineCacheName url = none := by
  constructor
  · intro hmem
    simp only [V1.activate, mem_keys_activate] at hmem
    exact absurd hmem.1 (by decide)
  · simp only [V1.activate]
    exact cacheGet_activate_ne _ _ _ _ (by decide)

/-! ### Claim C2 -/

/-- C2 (counterexample): a same-origin GET navigation request whose URL has
a cache entry: revision 2 performs one network fetch (not zero) and answers
with the network response rather than the cached entry. -/
theorem claim2_counterexample :
    cachesMatch exStoreNavHit exReqNav.url = some exResp200 ∧
    (V2.fetchHandler exOrigin exNetAlways exStoreNavHit exReqNav).netCalls
      = 1 ∧
    (V2.fetchHandler exOrigin exNetAlways exStoreNavHit exReqNav).response
      = some exNetResp ∧
    exNetResp ≠ exResp200 := by decide

/-- C2 (amended): a GET request whose URL has a cache entry is answered with
that entry, with zero network fetches and no store change, by revision 1 for
every request mode, and by revision 2 only for same-origin non-navigation
requests; revision 2 handles same-origin navigations network-first even when
a cache entry exists. -/
theorem claim2_theorem (origin : String) (net : String → Option Response)
    (s : CacheStore) (req : Request) (r : Response)
    (hc : cachesMatch s req.url = some r) :
    (req.method = "GET" →
      V1.fetchHandler origin net s req = ⟨some r, s, 0, true⟩) ∧
    (req.method = "GET" → req.origin = origin → req.mode ≠ "navigate" →
      V2.fetchHandler origin net s req = ⟨some r, s, 0, true⟩) := by
  constructor
  · intro hm
    unfold V1.fetchHandler
    rw [if_neg (by simp [hm]), hc]
  · intro hm ho hnav
    have hmr : cachesMatchReq s req = some r := by
      unfold cachesMatchReq
      rw [if_pos hm, hc]
    unfold V2.fetchHandler
    rw [if_neg (by simp [ho]), if_neg hnav, hmr]

/-- C2 (witness): the amended theorem applied to the cached stylesheet
request, for both revisions. -/
theorem claim2_witness :
    V1.fetchHandler exOrigin exNetAlways exStoreHit exReqCss
      = ⟨some exResp200, exStoreHit, 0, true⟩ ∧
    V2.fetchHandler exOrigin exNetAlways exStoreHit exReqCss
      = ⟨some exResp200, exStoreHit, 0, true⟩ :=
  ⟨(claim2_theorem exOrigin exNetAlways exStoreHit exReqCss exResp200
      (by decide)).1 rfl,
   (claim2_theorem exOrigin exNetAlways exStoreHit exReqCss exResp200
      (by decide)).2 rfl rfl (by decide)⟩

/-! ### Claim C3 -/

/-- C3 (counterexample): for a non-navigation GET request with no cache
entry and a failing network, revision 1's fetch handler calls `respondWith`
but resolves it with no response at all — not a synthetic 408 response. -/
theorem claim3_counterexample :
    (V1.fetchHandler exOrigin exNetDown [] exReqCss).response = none ∧
    (V1.fetchHandler exOrigin exNetDown [] exReqCss).intercepted = true := by
  decide

/-- C3 (amended): when the network fetch fails and no cache entry exists for
the request, revision 2 answers navigations with the cache lookup of the
Offline Fallback Page and non-navigations with the synthetic 408 response;
revision 1 answers navigations with the cache lookup of the Offline Fallback
Page but resolves non-navigations with an absent (undefined) response. -/
theorem claim3_theorem (origin : String) (net : String → Option Response)
    (s : CacheStore) (req : Request)
    (hmiss : cachesMatch s req.url = none) (hnet : net req.url = none) :
    (req.origin = origin → req.mode = "navigate" →
      (V2.fetchHandler origin net s req).response
        = cachesMatch s V2.OFFLINE_URL) ∧
    (req.origin = origin → req.mode ≠ "navigate" →
      (V2.fetchHandler origin net s req).response
        = some V2.networkErrorResponse) ∧
    (req.method = "GET" → req.mode = "navigate" →
      (V1.fetchHandler origin net s req).response
        = cachesMatch s V1.OFFLINE_PAGE) ∧
    (req.method = "GET" → req.mode ≠ "navigate" →
      (V1.fetchHandler origin net s req).response = none) := by
  refine ⟨?_, ?_, ?_, ?_⟩
  · intro ho hnav
    unfold V2.fetchHandler
    rw [if_neg (by simp [ho]), if_pos hnav, hnet]
  · intro ho hnav
    have hmr : cachesMatchReq s req = none := by
      unfold cachesMatchReq
      rw [hmiss]
      exact ite_self none
    unfold V2.fetchHandler
    rw [if_neg (by simp [ho]), if_neg hnav, hmr, hnet]
  · intro hm hnav
    unfold V1.fetchHandler
    rw [if_neg (by simp [hm]), hmiss, hnet, if_pos hnav]
  · intro hm hnav
    unfold V1.fetchHandler
    rw [if_neg (by simp [hm]), hmiss, hnet, if_neg hnav]

/-- C3 (witness): the amended theorem applied to a navigation and the
sub-resource request against an unreachable network, with the offline page
cached. -/
theorem claim3_witness :
    (V2.fetchHandler exOrigin exNetDown
        [(V2.CACHE_NAME, [("/offline/", exResp200)])]
        ⟨"GET", "https://ayyappa.example/songs/9/", exOrigin, "navigate"⟩
      ).response = cachesMatch
        [(V2.CACHE_NAME, [("/offline/", exResp200)])] V2.OFFLINE_URL ∧
    (V2.fetchHandler exOrigin exNetDown [] exReqCss).response
      = some V2.networkErrorResponse :=
  ⟨(claim3_theorem exOrigin exNetDown
      [(V2.CACHE_NAME, [("/offline/", exResp200)])]
      ⟨"GET", "https://ayyappa.example/songs/9/", exOrigin, "navigate"⟩
      (by decide) rfl).1 rfl rfl,
   (claim3_theorem exOrigin exNetDown [] exReqCss rfl rfl).2.1 rfl
      (by decide)⟩

/-! ### Claim C4 -/

/-- C4 (counterexample): on a cache miss answered by the network with a
same-origin 404 response, revision 1 stores the 404 into its current
generation — a response that is not a status-200 response. -/
theorem claim4_counterexample :
    exResp404.status ≠ 200 ∧
    cacheGet (V1.fetchHandler exOrigin exNet404 [] exReqMissing).store
      V1.CACHE_NAME exReqMissing.url = some exResp404 := by decide

/-- C4 (amended): on a cache miss whose network fetch succeeds, both
revisions return the network response to the caller; revision 2 stores a
clone into its current generation exactly when the request is a GET (the
Cache API rejects `put` otherwise) and the response has status 200 and type
"basic"; revision 1 stores it exactly when the request URL starts with the
agent's origin string, regardless of status or type. -/
theorem claim4_theorem (origin : String) (net : String → Option Response)
    (s : CacheStore) (req : Request) (nr : Response)
    (hmiss : cachesMatch s req.url = none) (hnet : net req.url = some nr) :
    (req.origin = origin → req.mode ≠ "navigate" →
      (V2.fetchHandler origin net s req).response = some nr ∧
      (req.method = "GET" → nr.status = 200 → nr.rtype = "basic" →
        (V2.fetchHandler origin net s req).store
          = cachePut s V2.CACHE_NAME req.url nr) ∧
      (¬(nr.status = 200 ∧ nr.rtype = "basic") →
        (V2.fetchHandler origin net s req).store = s) ∧
      (req.method ≠ "GET" →
        (V2.fetchHandler origin net s req).store = s)) ∧
    (req.method = "GET" →
      (V1.fetchHandler origin net s req).response = some nr ∧
      (strStartsWith req.url origin = true →
        (V1.fetchHandler origin net s req).store
          = cachePut s V1.CACHE_NAME req.url nr) ∧
      (strStartsWith req.url origin = false →
        (V1.fetchHandler origin net s req).store = s)) := by
  constructor
  · intro ho hnav
    have hmr : cachesMatchReq s req = none := by
      unfold cachesMatchReq
      rw [hmiss]
      exact ite_self none
    have hv2 : V2.fetchHandler origin net s req
        = if nr.status ≠ 200 ∨ nr.rtype ≠ "basic" then
            ⟨some nr, s, 1, true⟩
          else ⟨some nr, cachePutReq s V2.CACHE_NAME req nr, 1, true⟩ := by
      unfold V2.fetchHandler
      rw [if_neg (by simp [ho]), if_neg hnav, hmr, hnet]
    by_cases hcond : nr.status ≠ 200 ∨ nr.rtype ≠ "basic"
    · rw [hv2, if_pos hcond]
      refine ⟨rfl, ?_, fun _ => rfl, fun _ => rfl⟩
      intro _ h200 hbasic
      rcases hcond with h | h
      · exact absurd h200 h
      · exact absurd hbasic h
    · rw [hv2, if_neg hcond]
      refine ⟨rfl, ?_, ?_, ?_⟩
      · intro hm2 _ _
        show cachePutReq s V2.CACHE_NAME req nr
          = cachePut s V2.CACHE_NAME req.url nr
        unfold cachePutReq
        rw [if_pos hm2]
      · intro hnot
        push_neg at hcond
        exact absurd ⟨hcond.1, hcond.2⟩ hnot
      · intro hm2
        show cachePutReq s V2.CACHE_NAME req nr = s
        unfold cachePutReq
        rw [if_neg hm2]
  · intro hm
    have hv1 : V1.fetchHandler origin net s req
        = if strStartsWith req.url origin = true then
            ⟨some nr, cachePut s V1.CACHE_NAME req.url nr, 1, true⟩
          else ⟨some nr, s, 1, true⟩ := by
      unfold V1.fetchHandler
      rw [if_neg (by simp [hm]), hmiss, hnet]
    by_cases hsw : strStartsWith req.url origin = true
    · rw [hv1, if_pos hsw]
      exact ⟨rfl, fun _ => rfl, fun hf => absurd hsw (by simp [hf])⟩
    · rw [hv1, if_neg hsw]
      refine ⟨rfl, fun ht => absurd ht hsw, fun _ => rfl⟩

/-- C4 (witness): the amended theorem applied to a cache-miss request that
the network answers with a 200 "basic" response: both revisions store it
and return it. -/
theorem claim4_witness :
    (V2.fetchHandler exOrigin exNetAlways [] exReqMissing).response
      = some exNetResp ∧
    (V2.fetchHandler exOrigin exNetAlways [] exReqMissing).store
      = cachePut [] V2.CACHE_NAME exReqMissing.url exNetResp ∧
    (V1.fetchHandler exOrigin exNetAlways [] exReqMissing).response
      = some exNetResp ∧
    (V1.fetchHandler exOrigin exNetAlways [] exReqMissing).store
      = cachePut [] V1.CACHE_NAME exReqMissing.url exNetResp := by
  have h := claim4_theorem exOrigin exNetAlways [] exReqMissing exNetResp
    rfl rfl
  have h2 := h.1 rfl (by decide)
  have h1 := h.2 rfl
  exact ⟨h2.1, h2.2.1 rfl rfl rfl, h1.1, h1.2.1 (by decide)⟩

/-! ### Claim C5 -/

/-- C5 (counterexample): a same-origin POST request is intercepted by
revision 2's fetch handler — it has no request-method guard — and when its
network fetch fails the handler responds with the synthetic 408 response,
so the request is not passed through untouched. -/
theorem claim5_counterexample :
    exReqPost.method ≠ "GET" ∧
    (V2.fetchHandler exOrigin exNetDown [] exReqPost).intercepted = true ∧
    (V2.fetchHandler exOrigin exNetDown [] exReqPost).response
      = some V2.networkErrorResponse := by decide

/-- C5 (amended): revision 1 passes every non-GET request through untouched
(no interception, no response, no store change, no fetch); revision 2 has no
method guard: it intercepts every same-origin request regardless of method —
answering e.g. a failing non-GET request with the synthetic 408 response —
though handling a non-GET request never modifies the cache store, because
the Cache API makes `caches.match` miss and rejects `cache.put` for non-GET
requests; only cross-origin requests pass through untouched in revision 2. -/
theorem claim5_theorem (origin : String) (net : String → Option Response)
    (s : CacheStore) (req : Request) (h : req.method ≠ "GET") :
    V1.fetchHandler origin net s req = ⟨none, s, 0, false⟩ ∧
    (req.origin = origin →
      (V2.fetchHandler origin net s req).intercepted = true) ∧
    (req.origin = origin → req.mode ≠ "navigate" → net req.url = none →
      (V2.fetchHandler origin net s req).response
        = some V2.networkErrorResponse) ∧
    (V2.fetchHandler origin net s req).store = s ∧
    (req.origin ≠ origin →
      V2.fetchHandler origin net s req = ⟨none, s, 0, false⟩) := by
  have hmr : cachesMatchReq s req = none := by
    unfold cachesMatchReq
    rw [if_neg h]
  refine ⟨?_, ?_, ?_, ?_, ?_⟩
  · unfold V1.fetchHandler
    rw [if_pos h]
  · intro ho
    by_cases hnav : req.mode = "navigate"
    · rcases hn : net req.url with _ | nr
      · have hv : V2.fetchHandler origin net s req
            = ⟨cachesMatch s V2.OFFLINE_URL, s, 1, true⟩ := by
          unfold V2.fetchHandler
          rw [if_neg (by simp [ho]), if_pos hnav, hn]
        rw [hv]
      · have hv : V2.fetchHandler origin net s req = ⟨some nr, s, 1, true⟩ := by
          unfold V2.fetchHandler
          rw [if_neg (by simp [ho]), if_pos hnav, hn]
        rw [hv]
    · rcases hn : net req.url with _ | nr
      · have hv : V2.fetchHandler origin net s req
            = ⟨some V2.networkErrorResponse, s, 1, true⟩ := by
          unfold V2.fetchHandler
          rw [if_neg (by simp [ho]), if_neg hnav, hmr, hn]
        rw [hv]
      · have hv : V2.fetchHandler origin net s req
            = if nr.status ≠ 200 ∨ nr.rtype ≠ "basic" then
                ⟨some nr, s, 1, true⟩
              else
                ⟨some nr, cachePutReq s V2.CACHE_NAME req nr, 1, true⟩ := by
          unfold V2.fetchHandler
          rw [if_neg (by simp [ho]), if_neg hnav, hmr, hn]
        rw [hv]
        by_cases hcond : nr.status ≠ 200 ∨ nr.rtype ≠ "basic"
        · rw [if_pos hcond]
        · rw [if_neg hcond]
  · intro ho hnav hn
    have hv : V2.fetchHandler origin net s req
        = ⟨some V2.networkErrorResponse, s, 1, true⟩ := by
      unfold V2.fetchHandler
      rw [if_neg (by simp [ho]), if_neg hnav, hmr, hn]
    rw [hv]
  · by_cases ho : req.origin = origin
    · by_cases hnav : req.mode = "navigate"
      · rcases hn : net req.url with _ | nr
        · have hv : V2.fetchHandler origin net s req
              = ⟨cachesMatch s V2.OFFLINE_URL, s, 1, true⟩ := by
            unfold V2.fetchHandler
            rw [if_neg (by simp [ho]), if_pos hnav, hn]
          rw [hv]
        · have hv : V2.fetchHandler origin net s req
              = ⟨some nr, s, 1, true⟩ := by
            unfold V2.fetchHandler
            rw [if_neg (by simp [ho]), if_pos hnav, hn]
          rw [hv]
      · rcases hn : net req.url with _ | nr
        · have hv : V2.fetchHandler origin net s req
              = ⟨some V2.networkErrorResponse, s, 1, true⟩ := by
            unfold V2.fetchHandler
            rw [if_neg (by simp [ho]), if_neg hnav, hmr, hn]
          rw [hv]
        · have hv : V2.fetchHandler origin net s req
              = if nr.status ≠ 200 ∨ nr.rtype ≠ "basic" then
                  ⟨some nr, s, 1, true⟩
                else
                  ⟨some nr, cachePutReq s V2.CACHE_NAME req nr, 1, true⟩ := by
            unfold V2.fetchHandler
            rw [if_neg (by simp [ho]), if_neg hnav, hmr, hn]
          rw [hv]
          by_cases hcond : nr.status ≠ 200 ∨ nr.rtype ≠ "basic"
          · rw [if_pos hcond]
          · rw [if_neg hcond]
            show cachePutReq s V2.CACHE_NAME req nr = s
            unfold cachePutReq
            rw [if_neg h]
    · unfold V2.fetchHandler
      rw [if_pos ho]
  · intro ho
    unfold V2.fetchHandler
    rw [if_pos ho]

/-- C5 (witness): the amended theorem applied to the same-origin POST
request against an unreachable network: revision 1 passes it through
untouched; revision 2 intercepts it, answers with the synthetic 408, and
leaves the store unchanged. -/
theorem claim5_witness :
    V1.fetchHandler exOrigin exNetDown [] exReqPost
      = ⟨none, [], 0, false⟩ ∧
    (V2.fetchHandler exOrigin exNetDown [] exReqPost).intercepted = true ∧
    (V2.fetchHandler exOrigin exNetDown [] exReqPost).response
      = some V2.networkErrorResponse ∧
    (V2.fetchHandler exOrigin exNetDown [] exReqPost).store = [] :=
  ⟨(claim5_theorem exOrigin exNetDown [] exReqPost (by decide)).1,
   (claim5_theorem exOrigin exNetDown [] exReqPost (by decide)).2.1 rfl,
   (claim5_theorem exOrigin exNetDown [] exReqPost (by decide)).2.2.1 rfl
     (by decide) rfl,
   (claim5_theorem exOrigin exNetDown [] exReqPost (by decide)).2.2.2.1⟩

/-! ### Claim C6 -/

/-- C6 (counterexample): revision 1 intercepts a cross-origin GET request:
`respondWith` is called and resolves with the network response — the request
is not left to the default network path. -/
theorem claim6_counterexample :
    exReqCdn.origin ≠ exOrigin ∧
    (V1.fetchHandler exOrigin exNetAlways [] exReqCdn).intercepted = true ∧
    (V1.fetchHandler exOrigin exNetAlways [] exReqCdn).response
      = some exNetResp := by decide

/-- C6 (amended): revision 2 never intercepts a request whose URL origin
differs from the agent's origin and leaves the store unchanged; revision 1
does intercept cross-origin GET requests (serving them cache-first), but it
never stores their responses when the request URL does not start with the
agent's origin string. -/
theorem claim6_theorem (origin : String) (net : String → Option Response)
    (s : CacheStore) (req : Request) (h : req.origin ≠ origin) :
    V2.fetchHandler origin net s req = ⟨none, s, 0, false⟩ ∧
    (req.method = "GET" →
      (V1.fetchHandler origin net s req).intercepted = true) ∧
    (req.method = "GET" → strStartsWith req.url origin = false →
      (V1.fetchHandler origin net s req).store = s) := by
  refine ⟨?_, ?_, ?_⟩
  · unfold V2.fetchHandler
    rw [if_pos h]
  · intro hm
    rcases hc : cachesMatch s req.url with _ | r
    · rcases hn : net req.url with _ | nr
      · have hv : V1.fetchHandler origin net s req
            = if req.mode = "navigate" then
                ⟨cachesMatch s V1.OFFLINE_PAGE, s, 1, true⟩
              else ⟨none, s, 1, true⟩ := by
          unfold V1.fetchHandler
          rw [if_neg (by simp [hm]), hc, hn]
        rw [hv]
        by_cases hnav : req.mode = "navigate"
        · rw [if_pos hnav]
        · rw [if_neg hnav]
      · have hv : V1.fetchHandler origin net s req
            = if strStartsWith req.url origin = true then
                ⟨some nr, cachePut s V1.CACHE_NAME req.url nr, 1, true⟩
              else ⟨some nr, s, 1, true⟩ := by
          unfold V1.fetchHandler
          rw [if_neg (by simp [hm]), hc, hn]
        rw [hv]
        by_cases hsw : strStartsWith req.url origin = true
        · rw [if_pos hsw]
        · rw [if_neg hsw]
    · have hv : V1.fetchHandler origin net s req = ⟨some r, s, 0, true⟩ := by
        unfold V1.fetchHandler
        rw [if_neg (by simp [hm]), hc]
      rw [hv]
  · intro hm hsw
    rcases hc : cachesMatch s req.url with _ | r
    · rcases hn : net req.url with _ | nr
      · have hv : V1.fetchHandler origin net s req
            = if req.mode = "navigate" then
                ⟨cachesMatch s V1.OFFLINE_PAGE, s, 1, true⟩
              else ⟨none, s, 1, true⟩ := by
          unfold V1.fetchHandler
          rw [if_neg (by simp [hm]), hc, hn]
        rw [hv]
        by_cases hnav : req.mode = "navigate"
        · rw [if_pos hnav]
        · rw [if_neg hnav]
      · have hv : V1.fetchHandler origin net s req
            = if strStartsWith req.url origin = true then
                ⟨some nr, cachePut s V1.CACHE_NAME req.url nr, 1, true⟩
              else ⟨some nr, s, 1, true⟩ := by
          unfold V1.fetchHandler
          rw [if_neg (by simp [hm]), hc, hn]
        rw [hv, if_neg (by simp [hsw])]
    · have hv : V1.fetchHandler origin net s req = ⟨some r, s, 0, true⟩ := by
        unfold V1.fetchHandler
        rw [if_neg (by simp [hm]), hc]
      rw [hv]

/-- C6 (witness): the amended theorem applied to the cross-origin CDN
request. -/
theorem claim6_witness :
    V2.fetchHandler exOrigin exNetAlways [] exReqCdn
      = ⟨none, [], 0, false⟩ ∧
    (V1.fetchHandler exOrigin exNetAlways [] exReqCdn).intercepted = true ∧
    (V1.fetchHandler exOrigin exNetAlways [] exReqCdn).store = [] :=
  ⟨(claim6_theorem exOrigin exNetAlways [] exReqCdn (by decide)).1,
   (claim6_theorem exOrigin exNetAlways [] exReqCdn (by decide)).2.1 rfl,
   (claim6_theorem exOrigin exNetAlways [] exReqCdn (by decide)).2.2 rfl
     (by decide)⟩

/-! ### Claim C7 -/

/-- C7 (counterexample): revision 2 has no message handler, so delivering a
well-formed SAVE_OFFLINE message to it stores nothing: afterwards the url is
still absent from the current generation (and the store is unchanged). -/
theorem claim7_counterexample :
    V2.messageHandler [] exMsgSave = ([] : CacheStore) ∧
    cacheGet (V2.messageHandler [] exMsgSave) V2.CACHE_NAME
      "/songs/view/42/" = none := by decide

/-- C7 (amended): on a message of shape SAVE_OFFLINE revision 1 fetches the
url and stores the (ok) response into its current generation, and messages
of any other shape cause no cache modification; revision 2 registers no
message listener, so every message — including SAVE_OFFLINE — leaves the
cache store unchanged and performs no fetch. -/
theorem claim7_theorem (net : String → Option Response) (s : CacheStore)
    (m : Option MsgData) :
    (∀ d r, m = some d → d.mtype = "SAVE_OFFLINE" → net d.url = some r →
      r.ok = true →
      cacheGet (V1.messageHandler net s m) V1.CACHE_NAME d.url = some r) ∧
    (∀ d, m = some d → d.mtype ≠ "SAVE_OFFLINE" →
      V1.messageHandler net s m = s) ∧
    (m = none → V1.messageHandler net s m = s) ∧
    V2.messageHandler s m = s := by
  refine ⟨?_, ?_, ?_, rfl⟩
  · rintro d r rfl hty hnet hok
    have hv : V1.messageHandler net s (some d)
        = cachePut s V1.CACHE_NAME d.url r := by
      simp only [V1.messageHandler]
      rw [if_pos hty]
      simp only [hnet]
      rw [if_pos hok]
    rw [hv]
    exact cacheGet_cachePut_self s V1.CACHE_NAME d.url r
  · rintro d rfl hty
    simp only [V1.messageHandler]
    rw [if_neg hty]
  · rintro rfl
    rfl

/-- C7 (witness): the amended theorem applied to a SAVE_OFFLINE message for
one song page, a PING message, and revision 2's handling of the same
SAVE_OFFLINE message. -/
theorem claim7_witness :
    cacheGet (V1.messageHandler exNetSong [] exMsgSave) V1.CACHE_NAME
      "/songs/view/42/" = some exSongResp ∧
    V1.messageHandler exNetSong [] exMsgOther = [] ∧
    V2.messageHandler [] exMsgSave = [] :=
  ⟨(claim7_theorem exNetSong [] exMsgSave).1 ⟨"SAVE_OFFLINE", "/songs/view/42/"⟩
      exSongResp rfl rfl rfl (by decide),
   (claim7_theorem exNetSong [] exMsgOther).2.1 ⟨"PING", "/x"⟩ rfl (by decide),
   (claim7_theorem exNetSong [] exMsgSave).2.2.2⟩

/-! ### Claim C8 -/

/-- C8 (counterexample): a network on which the bulk add-all operation of
revision 1's install rejects (the manifest entry "/songs/" fails to fetch):
the promise extending the install event still fulfills — the install is
reported successful, not failed. -/
theorem claim8_counterexample :
    V1.addAllFetch exNetPartial V1.urlsToCache = none ∧
    (V1.install exNetPartial []).fulfilled = true := by decide

/-- C8 (amended): revision 1's install never rejects the promise extending
the install event: the `.catch` swallows an add-all rejection, so install is
always reported successful, and when the bulk operation rejects no manifest
entry is stored (only the empty current cache is created). -/
theorem claim8_theorem (net : String → Option Response) (s : CacheStore) :
    (V1.install net s).fulfilled = true ∧
    (V1.addAllFetch net V1.urlsToCache = none →
      (V1.install net s).store = cacheOpen s V1.CACHE_NAME) := by
  constructor
  · unfold V1.install
    cases V1.addAllFetch net V1.urlsToCache <;> rfl
  · intro hfail
    unfold V1.install
    rw [hfail]

/-- C8 (witness): the amended theorem applied to the network on which
"/songs/" fails. -/
theorem claim8_witness :
    (V1.install exNetPartial []).fulfilled = true ∧
    (V1.install exNetPartial []).store = cacheOpen [] V1.CACHE_NAME :=
  ⟨(claim8_theorem exNetPartial []).1,
   (claim8_theorem exNetPartial []).2 (by decide)⟩

/-! ### Claim C10 -/

/-- Helper for C10: revision 2's install loop neither writes a cache entry
for, nor warns about, a url whose fetch resolves with a not-ok response. -/
theorem installFold_preserves (net : String → Option Response) (u : String)
    (r : Response) (hr : net u = some r) (hok : r.ok = false)
    (urls : List String) :
    ∀ p : CacheStore × List String,
      cacheGet (urls.foldl (V2.installStep net) p).1 V2.CACHE_NAME u
          = cacheGet p.1 V2.CACHE_NAME u ∧
      (u ∉ p.2 → u ∉ (urls.foldl (V2.installStep net) p).2) := by
  induction urls with
  | nil => exact fun p => ⟨rfl, fun h => h⟩
  | cons v vs ih =>
    intro p
    rw [List.foldl_cons]
    rcases hv : net v with _ | rv
    · have hvu : v ≠ u := by
        intro he
        rw [he, hr] at hv
        cases hv
      have hstep : V2.installStep net p v = (p.1, p.2 ++ [v]) := by
        unfold V2.installStep
        rw [hv]
      rw [hstep]
      refine ⟨(ih _).1, fun hmem => (ih _).2 ?_⟩
      intro hin
      rcases List.mem_append.mp hin with hin | hin
      · exact hmem hin
      · exact hvu (List.mem_singleton.mp hin).symm
    · by_cases hvok : rv.ok = true
      · have hvu : v ≠ u := by
          intro he
          rw [he, hr] at hv
          cases hv
          rw [hvok] at hok
          cases hok
        have hstep : V2.installStep net p v
            = (cachePut p.1 V2.CACHE_NAME v rv, p.2) := by
          simp only [V2.installStep, hv]
          rw [if_pos hvok]
        rw [hstep]
        refine ⟨?_, fun hmem => (ih _).2 hmem⟩
        rw [(ih _).1]
        exact cacheGet_cachePut_ne_url p.1 V2.CACHE_NAME v u rv hvu
      · have hstep : V2.installStep net p v = p := by
          simp only [V2.installStep, hv]
          rw [if_neg hvok]
        rw [hstep]
        exact ih p

/-- C10: in revision 2's install, a manifest entry whose fetch resolves with
a not-ok response (e.g. a 404) is skipped silently: no cache entry is
written for it, no warning fires for it (the warning fires only when fetch
rejects), and the install step still completes successfully. -/
theorem claim10_theorem (net : String → Option Response) (s : CacheStore)
    (u : String) (r : Response) (_hu : u ∈ V2.CACHE_URLS)
    (hr : net u = some r) (hok : r.ok = false) :
    (V2.install net s).fulfilled = true ∧
    u ∉ (V2.install net s).warned ∧
    cacheGet (V2.install net s).store V2.CACHE_NAME u
      = cacheGet s V2.CACHE_NAME u := by
  refine ⟨rfl, ?_, ?_⟩
  · exact (installFold_preserves net u r hr hok V2.CACHE_URLS
      (cacheOpen s V2.CACHE_NAME, [])).2 (by simp)
  · have h := (installFold_preserves net u r hr hok V2.CACHE_URLS
      (cacheOpen s V2.CACHE_NAME, [])).1
    calc cacheGet (V2.install net s).store V2.CACHE_NAME u
        = cacheGet (cacheOpen s V2.CACHE_NAME) V2.CACHE_NAME u := h
      _ = cacheGet s V2.CACHE_NAME u :=
          cacheGet_cacheOpen s V2.CACHE_NAME V2.CACHE_NAME u

/-- C10 (witness): the theorem applied to the network where "/offline/"
resolves with a 404 and everything else succeeds, starting from the empty
store: install fulfills, warns about nothing, and leaves "/offline/" absent
from the v7 generation. -/
theorem claim10_witness :
    (V2.install exNet404Offline []).fulfilled = true ∧
    "/offline/" ∉ (V2.install exNet404Offline []).warned ∧
    cacheGet (V2.install exNet404Offline []).store V2.CACHE_NAME "/offline/"
      = cacheGet [] V2.CACHE_NAME "/offline/" :=
  claim10_theorem exNet404Offline [] "/offline/" exResp404 (by decide)
    (by decide) (by decide)

end SW
